import Mathlib

/-!
Verification of the tiktok-warmup automation core against its design
specification.

This development shallowly embeds the parts of the repository that the
checked properties talk about:

* `sanitizeTextForADB` and the comment-text call sites
  (src/stages/working.ts),
* the screenshot comparison and scroll-retry logic
  (`compareScreenshots`, `scrollToNextVideo` in src/stages/working.ts),
* the `WorkingStage` per-video cycle and session loop
  (`processVideo`, `performHealthCheck`, `execute` in src/stages/working.ts),
* the `Worker` session loop of `startAutomation` (Worker.ts),
* the `UIDataPersistence` store (UIDataPersistence.ts),
* proxy assignment and display formatting (config/proxy.ts).

External effects (device commands, the vision agent, `Math.random`, the
clock) are resolved by explicit oracle/environment values threaded through
the definitions, so every function here is a pure, executable translation
of the corresponding TypeScript control flow.
-/

namespace TikTokWarmup

/-! ## Text sanitization (working.ts, `sanitizeTextForADB`, lines 45-58)

The source pipeline is
`text.toLowerCase().replace(/[^a-z ]/g, '').replace(/\s+/g, ' ').trim()`.
After the character filter the only whitespace left is the plain space, so
the `\s+` collapse and the `trim` are modelled on spaces. -/

/-- JS `toLowerCase` restricted to what the following `[^a-z ]` filter can
see: ASCII `A`-`Z` maps to `a`-`z`, every other character is unchanged
(any non-ASCII result of the real `toLowerCase` is removed by the filter
immediately afterwards, so this is faithful for the composed pipeline). -/
def toLowerCaseChar (c : Char) : Char :=
  if 65 ≤ c.toNat ∧ c.toNat ≤ 90 then Char.ofNat (c.toNat + 32) else c

/-- The character class kept by `replace(/[^a-z ]/g, '')`: lowercase ASCII
letters and the space. -/
def isKeptChar (c : Char) : Bool :=
  (97 ≤ c.toNat && c.toNat ≤ 122) || c = ' '

/-- `replace(/\s+/g, ' ')` on a string whose only whitespace is `' '`:
every maximal run of spaces becomes a single space. -/
def collapseSpaces : List Char → List Char
  | [] => []
  | [c] => [c]
  | a :: b :: rest =>
    if a = ' ' ∧ b = ' ' then collapseSpaces (b :: rest)
    else a :: collapseSpaces (b :: rest)

/-- `trim()` on a string whose only whitespace is `' '`. -/
def trimSpaces (l : List Char) : List Char :=
  ((l.dropWhile (fun c => c = ' ')).reverse.dropWhile (fun c => c = ' ')).reverse

/-- working.ts lines 45-58. -/
def sanitizeTextForADB (s : String) : String :=
  String.mk (trimSpaces (collapseSpaces ((s.data.map toLowerCaseChar).filter isKeptChar)))

/-- Comment text computed at the AI-generation call site
(working.ts lines 361-362): sanitize, then `slice(0, maxLength)`. -/
def aiCommentText (maxLength : Nat) (generated : String) : String :=
  String.mk ((sanitizeTextForADB generated).data.take maxLength)

/-- Comment text computed at the template call sites (working.ts lines
367 and 376): sanitize only, with no truncation. -/
def templateCommentText (template : String) : String :=
  sanitizeTextForADB template

/-- Adjacent characters are never both spaces. -/
def NoDoubleSpace (l : List Char) : Prop :=
  List.Chain' (fun a b => ¬(a = ' ' ∧ b = ' ')) l

theorem mem_collapseSpaces {c : Char} : ∀ {l : List Char}, c ∈ collapseSpaces l → c ∈ l := by
  intro l
  induction l with
  | nil => simp [collapseSpaces]
  | cons a t ih =>
    cases t with
    | nil => simp [collapseSpaces]
    | cons b r =>
      intro hc
      simp only [collapseSpaces] at hc
      split at hc
      · exact List.mem_cons_of_mem a (ih hc)
      · rcases List.mem_cons.mp hc with h | h
        · exact h ▸ List.mem_cons_self a (b :: r)
        · exact List.mem_cons_of_mem a (ih h)

theorem head?_collapseSpaces : ∀ (l : List Char), (collapseSpaces l).head? = l.head? := by
  intro l
  induction l with
  | nil => rfl
  | cons a t ih =>
    cases t with
    | nil => rfl
    | cons b r =>
      simp only [collapseSpaces]
      split
      · rename_i h
        rw [ih]
        simp [h.1, h.2]
      · rfl

theorem noDoubleSpace_collapseSpaces : ∀ (l : List Char), NoDoubleSpace (collapseSpaces l) := by
  intro l
  induction l with
  | nil => exact List.chain'_nil
  | cons a t ih =>
    cases t with
    | nil => exact List.chain'_singleton a
    | cons b r =>
      simp only [collapseSpaces]
      split
      · exact ih
      · rename_i h
        refine List.chain'_cons'.mpr ⟨?_, ih⟩
        intro y hy
        rw [head?_collapseSpaces] at hy
        simp only [List.head?_cons, Option.mem_def, Option.some.injEq] at hy
        intro hcon
        exact h ⟨hcon.1, hy ▸ hcon.2⟩

theorem collapseSpaces_eq_self : ∀ {l : List Char}, NoDoubleSpace l → collapseSpaces l = l := by
  intro l
  induction l with
  | nil => intro _; rfl
  | cons a t ih =>
    cases t with
    | nil => intro _; rfl
    | cons b r =>
      intro h
      rcases List.chain'_cons.mp h with ⟨hab, ht⟩
      simp only [collapseSpaces]
      rw [if_neg hab, ih ht]

theorem head?_dropWhileSpace_ne {c : Char} :
    ∀ {l : List Char}, (l.dropWhile (fun c => c = ' ')).head? = some c → ¬ c = ' ' := by
  intro l
  induction l with
  | nil => simp [List.dropWhile]
  | cons a t ih =>
    intro h
    by_cases ha : a = ' '
    · rw [List.dropWhile_cons_of_pos (by simp [ha])] at h
      exact ih h
    · rw [List.dropWhile_cons_of_neg (by simp [ha])] at h
      simp only [List.head?_cons, Option.some.injEq] at h
      exact h ▸ ha

theorem dropWhileSpace_eq_self {l : List Char}
    (h : ∀ c, l.head? = some c → ¬ c = ' ') : l.dropWhile (fun c => c = ' ') = l := by
  cases l with
  | nil => rfl
  | cons a t =>
    have := h a rfl
    rw [List.dropWhile_cons_of_neg (by simpa using this)]

theorem trimSpaces_prefixOf (l : List Char) :
    trimSpaces l <+: l.dropWhile (fun c => c = ' ') := by
  unfold trimSpaces
  have h := List.dropWhile_suffix (l := (l.dropWhile (fun c => c = ' ')).reverse)
    (p := fun c => c = ' ')
  have := List.reverse_prefix.mpr h
  simpa using this

theorem head?_trimSpaces_ne {c : Char} {l : List Char}
    (h : (trimSpaces l).head? = some c) : ¬ c = ' ' := by
  rcases trimSpaces_prefixOf l with ⟨t, ht⟩
  cases hl : trimSpaces l with
  | nil => rw [hl] at h; simp at h
  | cons a r =>
    rw [hl] at h ht
    simp only [List.head?_cons, Option.some.injEq] at h
    have hd : (l.dropWhile (fun c => c = ' ')).head? = some a := by
      rw [← ht]; rfl
    exact h ▸ head?_dropWhileSpace_ne hd

theorem getLast?_trimSpaces_ne {c : Char} {l : List Char}
    (h : (trimSpaces l).getLast? = some c) : ¬ c = ' ' := by
  unfold trimSpaces at h
  rw [List.getLast?_reverse] at h
  exact head?_dropWhileSpace_ne h

theorem trimSpaces_sublist (l : List Char) : List.Sublist (trimSpaces l) l :=
  ((trimSpaces_prefixOf l).sublist).trans (List.dropWhile_sublist _)

theorem noDoubleSpace_trimSpaces {l : List Char} (h : NoDoubleSpace l) :
    NoDoubleSpace (trimSpaces l) :=
  List.Chain'.prefix (List.Chain'.suffix h (List.dropWhile_suffix _)) (trimSpaces_prefixOf l)

theorem trimSpaces_eq_self {l : List Char}
    (hh : ∀ c, l.head? = some c → ¬ c = ' ')
    (hl : ∀ c, l.getLast? = some c → ¬ c = ' ') : trimSpaces l = l := by
  unfold trimSpaces
  rw [dropWhileSpace_eq_self hh]
  rw [dropWhileSpace_eq_self (fun c hc => hl c (by rwa [← List.head?_reverse]))]
  exact List.reverse_reverse l

theorem mem_sanitizeTextForADB {c : Char} {s : String}
    (h : c ∈ (sanitizeTextForADB s).data) : isKeptChar c = true := by
  have h1 : c ∈ collapseSpaces ((s.data.map toLowerCaseChar).filter isKeptChar) :=
    (trimSpaces_sublist _).mem h
  exact (List.mem_filter.mp (mem_collapseSpaces h1)).2

theorem noDoubleSpace_sanitizeTextForADB (s : String) :
    NoDoubleSpace (sanitizeTextForADB s).data :=
  noDoubleSpace_trimSpaces (noDoubleSpace_collapseSpaces _)

theorem head?_sanitizeTextForADB_ne {c : Char} {s : String}
    (h : (sanitizeTextForADB s).data.head? = some c) : ¬ c = ' ' :=
  head?_trimSpaces_ne h

theorem getLast?_sanitizeTextForADB_ne {c : Char} {s : String}
    (h : (sanitizeTextForADB s).data.getLast? = some c) : ¬ c = ' ' :=
  getLast?_trimSpaces_ne h

theorem toLowerCaseChar_of_kept {c : Char} (h : isKeptChar c = true) :
    toLowerCaseChar c = c := by
  unfold isKeptChar at h
  rcases Bool.or_eq_true_iff.mp h with h | h
  · rcases Bool.and_eq_true_iff.mp h with ⟨h1, h2⟩
    have h1 := of_decide_eq_true h1
    have h2 := of_decide_eq_true h2
    unfold toLowerCaseChar
    rw [if_neg]
    omega
  · have : c = ' ' := by simpa using h
    subst this
    decide

theorem sanitizeTextForADB_idem_list {l : List Char}
    (hmem : ∀ c ∈ l, isKeptChar c = true)
    (hnds : NoDoubleSpace l)
    (hh : ∀ c, l.head? = some c → ¬ c = ' ')
    (hl : ∀ c, l.getLast? = some c → ¬ c = ' ') :
    trimSpaces (collapseSpaces ((l.map toLowerCaseChar).filter isKeptChar)) = l := by
  have hmap : l.map toLowerCaseChar = l := by
    conv_rhs => rw [← List.map_id l]
    exact List.map_congr_left (fun c hc => toLowerCaseChar_of_kept (hmem c hc))
  rw [hmap, List.filter_eq_self.mpr hmem, collapseSpaces_eq_self hnds,
    trimSpaces_eq_self hh hl]

theorem prefix_head?_space_ne {L t : List Char} (hpre : t <+: L)
    (hL : ∀ c, L.head? = some c → ¬ c = ' ') :
    ∀ c, t.head? = some c → ¬ c = ' ' := by
  intro c hc
  cases t with
  | nil => simp at hc
  | cons a r =>
    simp only [List.head?_cons, Option.some.injEq] at hc
    rcases hpre with ⟨u, hu⟩
    exact hc ▸ hL a (by rw [← hu]; rfl)

/-- C9: `sanitizeTextForADB` is idempotent: sanitizing an already-sanitized
string returns it unchanged, because the output contains only lowercase
ASCII letters and single interior spaces with no leading or trailing
space, and each pipeline stage is the identity on such strings. -/
theorem C9_sanitizeTextForADB_idempotent (s : String) :
    sanitizeTextForADB (sanitizeTextForADB s) = sanitizeTextForADB s := by
  have h := sanitizeTextForADB_idem_list (l := (sanitizeTextForADB s).data)
    (fun _ hc => mem_sanitizeTextForADB hc)
    (noDoubleSpace_sanitizeTextForADB s)
    (fun _ hc => head?_sanitizeTextForADB_ne hc)
    (fun _ hc => getLast?_sanitizeTextForADB_ne hc)
  show String.mk _ = _
  rw [h]

/-- C6 counterexample: the claim asserts that the text actually typed by
the comment action always has no trailing whitespace and never exceeds the
configured maximum length. Both parts fail on the code: at the
AI-generation call site the truncation `slice(0, maxLength)` can cut the
sanitized text right after an interior space (input `"ab cd"`, maximum
length 3, typed text `"ab "` ends in a space), and the template call sites
apply no truncation at all (template `"abcde"` with maximum length 3 is
typed as all 5 characters). -/
theorem C6_counterexample :
    (aiCommentText 3 "ab cd").data.getLast? = some ' ' ∧
    3 < (templateCommentText "abcde").length := by
  constructor
  · rfl
  · decide

/-- C6 (amended): for every input string the sanitizer output contains only
lowercase ASCII letters `a`-`z` and single spaces, with no leading or
trailing whitespace. At the AI-generation call site the typed text is
additionally truncated to the configured maximum length; it keeps the
character-class, single-space and no-leading-space properties, but may end
in a single trailing space cut from an interior word boundary. The
template call sites type the sanitizer output unchanged, with no
truncation, so their text has the sanitizer properties but no length
bound. -/
theorem C6_comment_sanitization_amended :
    (∀ s : String, ∀ c ∈ (sanitizeTextForADB s).data,
      (97 ≤ c.toNat ∧ c.toNat ≤ 122) ∨ c = ' ') ∧
    (∀ s : String, NoDoubleSpace (sanitizeTextForADB s).data) ∧
    (∀ (s : String) (c : Char), (sanitizeTextForADB s).data.head? = some c → ¬ c = ' ') ∧
    (∀ (s : String) (c : Char), (sanitizeTextForADB s).data.getLast? = some c → ¬ c = ' ') ∧
    (∀ (n : Nat) (s : String), (aiCommentText n s).length ≤ n) ∧
    (∀ (n : Nat) (s : String), ∀ c ∈ (aiCommentText n s).data,
      (97 ≤ c.toNat ∧ c.toNat ≤ 122) ∨ c = ' ') ∧
    (∀ (n : Nat) (s : String), NoDoubleSpace (aiCommentText n s).data) ∧
    (∀ (n : Nat) (s : String) (c : Char),
      (aiCommentText n s).data.head? = some c → ¬ c = ' ') ∧
    (∀ t : String, templateCommentText t = sanitizeTextForADB t) := by
  have hclass : ∀ s : String, ∀ c ∈ (sanitizeTextForADB s).data,
      (97 ≤ c.toNat ∧ c.toNat ≤ 122) ∨ c = ' ' := by
    intro s c hc
    have h := mem_sanitizeTextForADB hc
    unfold isKeptChar at h
    rcases Bool.or_eq_true_iff.mp h with h | h
    · rcases Bool.and_eq_true_iff.mp h with ⟨h1, h2⟩
      exact Or.inl ⟨of_decide_eq_true h1, of_decide_eq_true h2⟩
    · exact Or.inr (by simpa using h)
  refine ⟨hclass, noDoubleSpace_sanitizeTextForADB,
    fun _ _ h => head?_sanitizeTextForADB_ne h,
    fun _ _ h => getLast?_sanitizeTextForADB_ne h,
    ?_, ?_, ?_, ?_, fun _ => rfl⟩
  · intro n s
    exact List.length_take_le n _
  · intro n s c hc
    exact hclass s c (List.take_subset n _ hc)
  · intro n s
    exact List.Chain'.prefix (noDoubleSpace_sanitizeTextForADB s) (List.take_prefix n _)
  · intro n s c hc
    exact prefix_head?_space_ne (List.take_prefix n _)
      (fun _ h => head?_sanitizeTextForADB_ne h) c hc

/-- Witness for `C6_comment_sanitization_amended` at concrete inputs. -/
theorem C6_comment_sanitization_amended_witness :
    (((97 ≤ 'h'.toNat ∧ 'h'.toNat ≤ 122) ∨ 'h' = ' ') ∧
      (aiCommentText 2 "Hello!").length ≤ 2) ∧
    templateCommentText "Hi" = sanitizeTextForADB "Hi" :=
  ⟨⟨C6_comment_sanitization_amended.1 "Hello!" 'h' (by decide),
    C6_comment_sanitization_amended.2.2.2.2.1 2 "Hello!"⟩,
   C6_comment_sanitization_amended.2.2.2.2.2.2.2.2 "Hi"⟩

/-! ## Proxy configuration (config/proxy.ts)

`ProxyConfig` and `ProxySettings` mirror the interfaces of config/proxy.ts;
`deviceMappings` (a JS `Record`) is modelled as a lookup function. -/

structure ProxyConfig where
  host : String
  port : Int
  username : Option String := none
  password : Option String := none
deriving DecidableEq

structure ProxySettings where
  enabled : Bool
  pool : Option (List ProxyConfig) := none
  deviceMappings : Option (String → Option ProxyConfig) := none

/-- A default value handed to `List.getD`; never selected because the index
is always reduced modulo the pool length. -/
def dummyProxy : ProxyConfig := ⟨"", 0, none, none⟩

/-- JS `Map.prototype.set`: overwrite the entry for `k` if present,
otherwise append it. -/
def mapSet (m : List (String × ProxyConfig)) (k : String) (v : ProxyConfig) :
    List (String × ProxyConfig) :=
  match m with
  | [] => [(k, v)]
  | (k', v') :: t => if k' = k then (k, v) :: t else (k', v') :: mapSet t k v

/-- First loop of `assignProxiesToDevices` (config/proxy.ts lines 155-162):
record the explicit `deviceMappings` entry for every device that has one. -/
def mappingFold (m : String → Option ProxyConfig)
    (a : List (String × ProxyConfig)) (l : List String) :
    List (String × ProxyConfig) :=
  l.foldl (fun a d =>
    match m d with
    | some p => mapSet a d p
    | none => a) a

/-- Second loop of `assignProxiesToDevices` (config/proxy.ts lines 175-181):
round-robin from the pool for every device not yet assigned; the pool index
advances only when an assignment is made. -/
def poolFold (pool : List ProxyConfig)
    (acc : List (String × ProxyConfig) × Nat) (l : List String) :
    List (String × ProxyConfig) × Nat :=
  l.foldl (fun acc d =>
    if (List.lookup d acc.1).isSome then acc
    else (mapSet acc.1 d (pool.getD (acc.2 % pool.length) dummyProxy), acc.2 + 1)) acc

/-- config/proxy.ts lines 144-184. -/
def assignProxiesToDevices (deviceIds : List String) (settings : ProxySettings) :
    List (String × ProxyConfig) :=
  if settings.enabled = false then [] else
  let a0 := match settings.deviceMappings with
    | some m => mappingFold m [] deviceIds
    | none => []
  if settings.deviceMappings.isSome ∧ a0.length = deviceIds.length then a0
  else
    match settings.pool with
    | none => a0
    | some pool =>
      if pool.length = 0 then a0
      else (poolFold pool (a0, 0) deviceIds).1

/-- config/proxy.ts lines 189-192: display string that replaces the
password with `***`; JS `proxy.username ?` is falsy for the empty string. -/
def formatProxy (p : ProxyConfig) : String :=
  let auth := match p.username with
    | some u => if u = "" then "" else u ++ ":***@"
    | none => ""
  auth ++ p.host ++ ":" ++ toString p.port

/-- Declarative round-robin policy: a device with an explicit mapping keeps
it and does not advance the pool index; the i-th unmapped device (counting
from the start of the list) receives `pool[i % pool.length]`. -/
def roundRobinSpec (m : String → Option ProxyConfig) (pool : List ProxyConfig) :
    Nat → List String → List (String × ProxyConfig)
  | _, [] => []
  | i, d :: t =>
    match m d with
    | some p => (d, p) :: roundRobinSpec m pool i t
    | none => (d, pool.getD (i % pool.length) dummyProxy) :: roundRobinSpec m pool (i + 1) t

theorem lookup_cons_self {k : String} {v : ProxyConfig} {t : List (String × ProxyConfig)} :
    List.lookup k ((k, v) :: t) = some v := by
  simp [List.lookup]

theorem lookup_cons_ne {k k' : String} {v : ProxyConfig} {t : List (String × ProxyConfig)}
    (h : k' ≠ k) : List.lookup k' ((k, v) :: t) = List.lookup k' t := by
  have hb : (k' == k) = false := beq_eq_false_iff_ne.mpr h
  simp [List.lookup, hb]

theorem lookup_mapSet_self (m : List (String × ProxyConfig)) (k : String) (v : ProxyConfig) :
    List.lookup k (mapSet m k v) = some v := by
  induction m with
  | nil =>
    simp only [mapSet]
    exact lookup_cons_self
  | cons h t ih =>
    obtain ⟨k', v'⟩ := h
    simp only [mapSet]
    split
    · exact lookup_cons_self
    · rename_i hne
      rw [lookup_cons_ne (fun h => hne h.symm)]
      exact ih

theorem lookup_mapSet_ne (m : List (String × ProxyConfig)) {k k' : String} (v : ProxyConfig)
    (h : k' ≠ k) : List.lookup k' (mapSet m k v) = List.lookup k' m := by
  induction m with
  | nil =>
    simp only [mapSet]
    exact lookup_cons_ne h
  | cons hd t ih =>
    obtain ⟨a, b⟩ := hd
    simp only [mapSet]
    split
    · rename_i hak
      subst hak
      rw [lookup_cons_ne h, lookup_cons_ne h]
    · by_cases hka : k' = a
      · subst hka
        rw [lookup_cons_self, lookup_cons_self]
      · rw [lookup_cons_ne hka, lookup_cons_ne hka]
        exact ih

theorem length_mapSet_le (m : List (String × ProxyConfig)) (k : String) (v : ProxyConfig) :
    (mapSet m k v).length ≤ m.length + 1 := by
  induction m with
  | nil => simp [mapSet]
  | cons hd t ih =>
    obtain ⟨a, b⟩ := hd
    simp only [mapSet]
    split
    · simp
    · simpa using Nat.succ_le_succ ih

theorem mappingFold_cons (m : String → Option ProxyConfig)
    (a : List (String × ProxyConfig)) (x : String) (t : List String) :
    mappingFold m a (x :: t) =
      mappingFold m (match m x with | some p => mapSet a x p | none => a) t := rfl

theorem poolFold_cons (pool : List ProxyConfig)
    (acc : List (String × ProxyConfig) × Nat) (x : String) (t : List String) :
    poolFold pool acc (x :: t) =
      poolFold pool
        (if (List.lookup x acc.1).isSome then acc
         else (mapSet acc.1 x (pool.getD (acc.2 % pool.length) dummyProxy), acc.2 + 1)) t := rfl

theorem lookup_mappingFold_not_mem (m : String → Option ProxyConfig) {d : String} :
    ∀ (l : List String) (a : List (String × ProxyConfig)), d ∉ l →
      List.lookup d (mappingFold m a l) = List.lookup d a := by
  intro l
  induction l with
  | nil => intro a _; rfl
  | cons x t ih =>
    intro a hd
    have hdx : d ≠ x := fun h => hd (h ▸ List.mem_cons_self x t)
    have hdt : d ∉ t := fun h => hd (List.mem_cons_of_mem x h)
    rw [mappingFold_cons]
    cases hmx : m x with
    | none => exact ih a hdt
    | some p =>
      rw [ih (mapSet a x p) hdt]
      exact lookup_mapSet_ne a p hdx

theorem lookup_mappingFold_mem (m : String → Option ProxyConfig) {d : String} :
    ∀ (l : List String) (a : List (String × ProxyConfig)), l.Nodup → d ∈ l →
      List.lookup d (mappingFold m a l) =
        (match m d with
          | some p => some p
          | none => List.lookup d a) := by
  intro l
  induction l with
  | nil => intro a _ hd; simp at hd
  | cons x t ih =>
    intro a hnd hd
    have hnd' := List.nodup_cons.mp hnd
    rw [mappingFold_cons]
    rcases List.mem_cons.mp hd with rfl | hdt
    · cases hmx : m d with
      | none => exact lookup_mappingFold_not_mem m t a hnd'.1
      | some p =>
        rw [lookup_mappingFold_not_mem m t (mapSet a d p) hnd'.1]
        exact lookup_mapSet_self a d p
    · have hdx : d ≠ x := fun h => hnd'.1 (h ▸ hdt)
      cases hmx : m x with
      | none => exact ih a hnd'.2 hdt
      | some p =>
        rw [ih (mapSet a x p) hnd'.2 hdt]
        cases hmd : m d with
        | none => exact lookup_mapSet_ne a p hdx
        | some q => rfl

theorem length_mappingFold_le (m : String → Option ProxyConfig) :
    ∀ (l : List String) (a : List (String × ProxyConfig)),
      (mappingFold m a l).length ≤ a.length + l.countP (fun d => (m d).isSome) := by
  intro l
  induction l with
  | nil => intro a; simp [mappingFold]
  | cons x t ih =>
    intro a
    rw [mappingFold_cons, List.countP_cons]
    cases hmx : m x with
    | none =>
      have := ih a
      simp [hmx]
      omega
    | some p =>
      have h1 := ih (mapSet a x p)
      have h2 := length_mapSet_le a x p
      simp [hmx]
      omega

theorem lookup_poolFold_not_mem (pool : List ProxyConfig) {d : String} :
    ∀ (l : List String) (acc : List (String × ProxyConfig) × Nat), d ∉ l →
      List.lookup d (poolFold pool acc l).1 = List.lookup d acc.1 := by
  intro l
  induction l with
  | nil => intro acc _; rfl
  | cons x t ih =>
    intro acc hd
    have hdx : d ≠ x := fun h => hd (h ▸ List.mem_cons_self x t)
    have hdt : d ∉ t := fun h => hd (List.mem_cons_of_mem x h)
    rw [poolFold_cons]
    by_cases hx : (List.lookup x acc.1).isSome
    · rw [if_pos hx]
      exact ih acc hdt
    · rw [if_neg hx]
      rw [ih _ hdt]
      exact lookup_mapSet_ne acc.1 _ hdx

theorem lookup_poolFold_roundRobin (pool : List ProxyConfig)
    (m : String → Option ProxyConfig) :
    ∀ (l : List String) (acc : List (String × ProxyConfig) × Nat), l.Nodup →
      (∀ d ∈ l, List.lookup d acc.1 = m d) →
      ∀ d ∈ l, List.lookup d (poolFold pool acc l).1 =
        List.lookup d (roundRobinSpec m pool acc.2 l) := by
  intro l
  induction l with
  | nil => intro acc _ _ d hd; simp at hd
  | cons x t ih =>
    intro acc hnd hinv d hd
    have hnd' := List.nodup_cons.mp hnd
    have hx := hinv x (List.mem_cons_self x t)
    rw [poolFold_cons]
    simp only [roundRobinSpec]
    cases hmx : m x with
    | some p =>
      rw [hmx] at hx
      rw [if_pos (by simp [hx])]
      rcases List.mem_cons.mp hd with rfl | hdt
      · rw [lookup_poolFold_not_mem pool t acc hnd'.1, hx, lookup_cons_self]
      · have hdx : d ≠ x := fun h => hnd'.1 (h ▸ hdt)
        rw [ih acc hnd'.2 (fun d' hd' => hinv d' (List.mem_cons_of_mem x hd')) d hdt]
        rw [lookup_cons_ne hdx]
    | none =>
      rw [hmx] at hx
      rw [if_neg (by simp [hx])]
      rcases List.mem_cons.mp hd with rfl | hdt
      · rw [lookup_poolFold_not_mem pool t _ hnd'.1]
        rw [lookup_mapSet_self, lookup_cons_self]
      · have hdx : d ≠ x := fun h => hnd'.1 (h ▸ hdt)
        have hinv' : ∀ d' ∈ t,
            List.lookup d' (mapSet acc.1 x (pool.getD (acc.2 % pool.length) dummyProxy)) = m d' := by
          intro d' hd'
          have hd'x : d' ≠ x := fun h => hnd'.1 (h ▸ hd')
          rw [lookup_mapSet_ne acc.1 _ hd'x]
          exact hinv d' (List.mem_cons_of_mem x hd')
        rw [ih (mapSet acc.1 x (pool.getD (acc.2 % pool.length) dummyProxy), acc.2 + 1)
          hnd'.2 hinv' d hdt]
        rw [lookup_cons_ne hdx]

theorem lookup_roundRobinSpec_mapped (m : String → Option ProxyConfig)
    (pool : List ProxyConfig) {d : String} {p : ProxyConfig} (hmd : m d = some p) :
    ∀ (i : Nat) (l : List String), d ∈ l →
      List.lookup d (roundRobinSpec m pool i l) = some p := by
  intro i l
  induction l generalizing i with
  | nil => intro hd; simp at hd
  | cons x t ih =>
    intro hd
    simp only [roundRobinSpec]
    by_cases hdx : d = x
    · subst hdx
      rw [hmd]
      exact lookup_cons_self
    · have hdt : d ∈ t := by
        rcases List.mem_cons.mp hd with h | h
        · exact absurd h hdx
        · exact h
      cases hmx : m x with
      | some q => rw [lookup_cons_ne hdx]; exact ih i hdt
      | none => rw [lookup_cons_ne hdx]; exact ih (i + 1) hdt

/-- Unfolding of `assignProxiesToDevices` for enabled settings with both a
device mapping and a nonempty pool. -/
theorem assignProxiesToDevices_eq (deviceIds : List String)
    (m : String → Option ProxyConfig) (pool : List ProxyConfig)
    (hlen : pool.length ≠ 0) :
    assignProxiesToDevices deviceIds ⟨true, some pool, some m⟩ =
      if (mappingFold m [] deviceIds).length = deviceIds.length then mappingFold m [] deviceIds
      else (poolFold pool (mappingFold m [] deviceIds, 0) deviceIds).1 := by
  simp [assignProxiesToDevices, hlen]

/-- C10: `formatProxy` never reveals the proxy password: two configurations
that differ only in the password field format to the identical string, so
the password neither appears in nor influences the displayed output. -/
theorem C10_formatProxy_ignores_password (p q : ProxyConfig)
    (hhost : p.host = q.host) (hport : p.port = q.port)
    (huser : p.username = q.username) : formatProxy p = formatProxy q := by
  cases p
  cases q
  simp only at hhost hport huser
  subst hhost
  subst hport
  subst huser
  rfl

/-- Witness for `C10_formatProxy_ignores_password`: the same proxy with two
different passwords formats identically. -/
theorem C10_formatProxy_ignores_password_witness :
    formatProxy ⟨"1.2.3.4", 80, some "user", some "secretA"⟩ =
      formatProxy ⟨"1.2.3.4", 80, some "user", some "secretB"⟩ :=
  C10_formatProxy_ignores_password _ _ rfl rfl rfl

/-- C8: round-robin proxy assignment. First conjunct: for 3 devices, an
enabled settings object with a 2-proxy pool and no device mappings, the
devices receive `pool[0]`, `pool[1]`, `pool[0]` in device order. Second
conjunct: with an explicit mapping for the middle device, that device keeps
its mapped proxy and the round-robin index advances only for the two
unmapped devices (`pool[0]` then `pool[1]`). Third conjunct: in general
(enabled settings, mappings `m`, nonempty pool, distinct device ids) the
computed assignment agrees pointwise with `roundRobinSpec`, the policy that
keeps every mapped device's proxy, skips it in the round-robin, and
advances the pool index only for unmapped devices. Fourth conjunct: every
device with an explicit mapping keeps exactly its mapped proxy. -/
theorem C8_assignProxiesToDevices_roundRobin :
    (∀ p0 p1 : ProxyConfig,
      List.lookup "d1" (assignProxiesToDevices ["d1", "d2", "d3"] ⟨true, some [p0, p1], none⟩)
          = some p0 ∧
      List.lookup "d2" (assignProxiesToDevices ["d1", "d2", "d3"] ⟨true, some [p0, p1], none⟩)
          = some p1 ∧
      List.lookup "d3" (assignProxiesToDevices ["d1", "d2", "d3"] ⟨true, some [p0, p1], none⟩)
          = some p0) ∧
    (∀ p0 p1 pm : ProxyConfig,
      let s : ProxySettings :=
        ⟨true, some [p0, p1], some (fun d => if d = "d2" then some pm else none)⟩
      List.lookup "d1" (assignProxiesToDevices ["d1", "d2", "d3"] s) = some p0 ∧
      List.lookup "d2" (assignProxiesToDevices ["d1", "d2", "d3"] s) = some pm ∧
      List.lookup "d3" (assignProxiesToDevices ["d1", "d2", "d3"] s) = some p1) ∧
    (∀ (deviceIds : List String) (settings : ProxySettings)
        (m : String → Option ProxyConfig) (pool : List ProxyConfig),
      settings.enabled = true → settings.deviceMappings = some m →
      settings.pool = some pool → pool.length ≠ 0 → deviceIds.Nodup →
      ∀ d ∈ deviceIds,
        List.lookup d (assignProxiesToDevices deviceIds settings) =
          List.lookup d (roundRobinSpec m pool 0 deviceIds)) ∧
    (∀ (deviceIds : List String) (settings : ProxySettings)
        (m : String → Option ProxyConfig) (pool : List ProxyConfig)
        (d : String) (p : ProxyConfig),
      settings.enabled = true → settings.deviceMappings = some m →
      settings.pool = some pool → pool.length ≠ 0 → deviceIds.Nodup →
      d ∈ deviceIds → m d = some p →
        List.lookup d (assignProxiesToDevices deviceIds settings) = some p) := by
  have hgen : ∀ (deviceIds : List String) (settings : ProxySettings)
      (m : String → Option ProxyConfig) (pool : List ProxyConfig),
      settings.enabled = true → settings.deviceMappings = some m →
      settings.pool = some pool → pool.length ≠ 0 → deviceIds.Nodup →
      ∀ d ∈ deviceIds,
        List.lookup d (assignProxiesToDevices deviceIds settings) =
          List.lookup d (roundRobinSpec m pool 0 deviceIds) := by
    intro deviceIds settings m pool hen hdm hpool hlen hnd d hd
    obtain ⟨en, po, dm⟩ := settings
    simp only at hen hdm hpool
    subst hen
    subst hdm
    subst hpool
    have hinv : ∀ d' ∈ deviceIds, List.lookup d' (mappingFold m [] deviceIds) = m d' := by
      intro d' hd'
      rw [lookup_mappingFold_mem m deviceIds [] hnd hd']
      cases m d' <;> rfl
    rw [assignProxiesToDevices_eq deviceIds m pool hlen]
    by_cases hall : (mappingFold m [] deviceIds).length = deviceIds.length
    · rw [if_pos hall]
      have hle := length_mappingFold_le m deviceIds []
      simp only [List.length_nil, Nat.zero_add] at hle
      have hcnt : deviceIds.countP (fun d => (m d).isSome) = deviceIds.length := by
        have := deviceIds.countP_le_length (fun d => (m d).isSome)
        omega
      have hmapped := List.countP_eq_length.mp hcnt d hd
      obtain ⟨p, hp⟩ := Option.isSome_iff_exists.mp hmapped
      rw [hinv d hd, hp, lookup_roundRobinSpec_mapped m pool hp 0 deviceIds hd]
    · rw [if_neg hall]
      exact lookup_poolFold_roundRobin pool m deviceIds (mappingFold m [] deviceIds, 0)
        hnd hinv d hd
  refine ⟨?_, ?_, hgen, ?_⟩
  · intro p0 p1
    refine ⟨?_, ?_, ?_⟩ <;>
      simp [assignProxiesToDevices, mappingFold, poolFold, mapSet, List.lookup,
        lookup_cons_self, lookup_cons_ne, dummyProxy]
  · intro p0 p1 pm
    refine ⟨?_, ?_, ?_⟩ <;>
      simp [assignProxiesToDevices, mappingFold, poolFold, mapSet, List.lookup,
        lookup_cons_self, lookup_cons_ne, dummyProxy]
  · intro deviceIds settings m pool d p hen hdm hpool hlen hnd hd hmd
    rw [hgen deviceIds settings m pool hen hdm hpool hlen hnd d hd]
    exact lookup_roundRobinSpec_mapped m pool hmd 0 deviceIds hd

/-- Witness for `C8_assignProxiesToDevices_roundRobin` at concrete inputs. -/
theorem C8_assignProxiesToDevices_roundRobin_witness :
    (List.lookup "d2"
        (assignProxiesToDevices ["d1", "d2", "d3"]
          ⟨true, some [⟨"h0", 1, none, none⟩, ⟨"h1", 2, none, none⟩], none⟩)
        = some ⟨"h1", 2, none, none⟩) ∧
    (List.lookup "d2"
        (assignProxiesToDevices ["d1", "d2"]
          ⟨true, some [⟨"h0", 1, none, none⟩],
            some (fun d => if d = "d2" then some ⟨"hm", 9, none, none⟩ else none)⟩)
        = List.lookup "d2"
            (roundRobinSpec (fun d => if d = "d2" then some ⟨"hm", 9, none, none⟩ else none)
              [⟨"h0", 1, none, none⟩] 0 ["d1", "d2"])) :=
  ⟨(C8_assignProxiesToDevices_roundRobin.1 ⟨"h0", 1, none, none⟩ ⟨"h1", 2, none, none⟩).2.1,
   C8_assignProxiesToDevices_roundRobin.2.2.1 ["d1", "d2"] _ _ _ rfl rfl rfl
     (by decide) (by decide) "d2" (by decide)⟩

/-! ## Learned UI data and persistence (Worker.ts, UIDataPersistence.ts)

`LearnedUIElements` mirrors the interface in Worker.ts; every slot is
optional. The persisted store (a JSON document keyed by device id) is
modelled as a lookup function, and the clock (`Date.now()`) is passed in
explicitly as a millisecond timestamp. -/

structure UIRect where
  y1 : Int
  x1 : Int
  y2 : Int
  x2 : Int
deriving DecidableEq

structure UIElement where
  x : Int
  y : Int
  confidence : Rat
  boundingBox : Option UIRect := none
deriving DecidableEq

structure LearnedUIElements where
  likeButton : Option UIElement := none
  commentButton : Option UIElement := none
  commentInputField : Option UIElement := none
  commentSendButton : Option UIElement := none
  followButton : Option UIElement := none
  profileImage : Option UIElement := none
  searchBar : Option UIElement := none
  firstSearchResult : Option UIElement := none
deriving DecidableEq

/-- Stored entry shape (UIDataPersistence.ts lines 11-17). -/
structure StoredUIData where
  deviceId : String
  deviceName : String
  learnedUI : LearnedUIElements
  timestamp : Int
  version : String
deriving DecidableEq

/-- The JSON document `learned-ui-data.json`, keyed by device id. -/
def UIDataStorage := String → Option StoredUIData

namespace UIDataPersistence

def MAX_AGE_DAYS : Int := 30

def CURRENT_VERSION : String := "1.0.0"

/-- UIDataPersistence.isDataValid (lines 79-83): the source computes
`ageInDays = (now - timestamp) / 86400000` in JS numbers and compares
`ageInDays ≤ 30`; modelled in exact integer arithmetic as
`now - timestamp ≤ 30 * 86400000`. -/
def isDataValid (now : Int) (d : StoredUIData) : Bool :=
  now - d.timestamp ≤ MAX_AGE_DAYS * 86400000

/-- UIDataPersistence.saveDeviceUIData (lines 119-142): read-modify-write
of the whole document, stamping the entry with the current time. -/
def saveDeviceUIData (storage : UIDataStorage) (deviceId deviceName : String)
    (learnedUI : LearnedUIElements) (now : Int) : UIDataStorage :=
  fun k =>
    if k = deviceId then some ⟨deviceId, deviceName, learnedUI, now, CURRENT_VERSION⟩
    else storage k

/-- UIDataPersistence.loadDeviceUIData (lines 88-114): absent entries give
`null`; an expired entry gives `null` and is deleted from the document as a
side effect; a valid entry gives its learned UI unchanged. Returns the
loaded value together with the document after the call. -/
def loadDeviceUIData (storage : UIDataStorage) (deviceId : String) (now : Int) :
    Option LearnedUIElements × UIDataStorage :=
  match storage deviceId with
  | none => (none, storage)
  | some d =>
    if isDataValid now d then (some d.learnedUI, storage)
    else (none, fun k => if k = deviceId then none else storage k)

/-- UIDataPersistence.deleteDeviceUIData (lines 147-158). -/
def deleteDeviceUIData (storage : UIDataStorage) (deviceId : String) : UIDataStorage :=
  fun k => if k = deviceId then none else storage k

end UIDataPersistence

/-- C5: persistence round-trip. After `saveDeviceUIData(id, name, data)` at
time `tSave`, a `loadDeviceUIData(id)` at time `tLoad` within the 30-day
retention window returns exactly the saved `data` and leaves the store
unchanged; past the window it returns `none`, removes the entry for `id`
from the store, and leaves every other entry unchanged. -/
theorem C5_persistence_roundtrip (storage : UIDataStorage)
    (id name : String) (data : LearnedUIElements) (tSave tLoad : Int) :
    (tLoad - tSave ≤ 30 * 86400000 →
      (UIDataPersistence.loadDeviceUIData
          (UIDataPersistence.saveDeviceUIData storage id name data tSave) id tLoad).1
        = some data ∧
      ∀ k, (UIDataPersistence.loadDeviceUIData
          (UIDataPersistence.saveDeviceUIData storage id name data tSave) id tLoad).2 k
        = UIDataPersistence.saveDeviceUIData storage id name data tSave k) ∧
    (30 * 86400000 < tLoad - tSave →
      (UIDataPersistence.loadDeviceUIData
          (UIDataPersistence.saveDeviceUIData storage id name data tSave) id tLoad).1
        = none ∧
      (UIDataPersistence.loadDeviceUIData
          (UIDataPersistence.saveDeviceUIData storage id name data tSave) id tLoad).2 id
        = none ∧
      ∀ k, k ≠ id →
        (UIDataPersistence.loadDeviceUIData
            (UIDataPersistence.saveDeviceUIData storage id name data tSave) id tLoad).2 k
          = UIDataPersistence.saveDeviceUIData storage id name data tSave k) := by
  have hsave : UIDataPersistence.saveDeviceUIData storage id name data tSave id
      = some ⟨id, name, data, tSave, UIDataPersistence.CURRENT_VERSION⟩ := by
    simp [UIDataPersistence.saveDeviceUIData]
  constructor
  · intro hin
    have hvalid : UIDataPersistence.isDataValid tLoad
        ⟨id, name, data, tSave, UIDataPersistence.CURRENT_VERSION⟩ = true := by
      simp only [UIDataPersistence.isDataValid, UIDataPersistence.MAX_AGE_DAYS]
      simpa using by omega
    constructor
    · simp [UIDataPersistence.loadDeviceUIData, hsave, hvalid]
    · intro k
      simp [UIDataPersistence.loadDeviceUIData, hsave, hvalid]
  · intro hout
    have hvalid : UIDataPersistence.isDataValid tLoad
        ⟨id, name, data, tSave, UIDataPersistence.CURRENT_VERSION⟩ = false := by
      simp only [UIDataPersistence.isDataValid, UIDataPersistence.MAX_AGE_DAYS]
      simpa using by omega
    refine ⟨?_, ?_, ?_⟩
    · simp [UIDataPersistence.loadDeviceUIData, hsave, hvalid]
    · simp [UIDataPersistence.loadDeviceUIData, hsave, hvalid]
    · intro k hk
      simp [UIDataPersistence.loadDeviceUIData, hsave, hvalid,
        UIDataPersistence.saveDeviceUIData, hk]

/-- Witness for `C5_persistence_roundtrip`: a fresh save loaded one hour
later returns the data; loaded 31 days later it returns `none` and the
entry is gone. -/
theorem C5_persistence_roundtrip_witness :
    ((UIDataPersistence.loadDeviceUIData
        (UIDataPersistence.saveDeviceUIData (fun _ => none) "dev" "Device" {} 0)
        "dev" 3600000).1 = some {}) ∧
    ((UIDataPersistence.loadDeviceUIData
        (UIDataPersistence.saveDeviceUIData (fun _ => none) "dev" "Device" {} 0)
        "dev" (31 * 86400000)).1 = none) ∧
    ((UIDataPersistence.loadDeviceUIData
        (UIDataPersistence.saveDeviceUIData (fun _ => none) "dev" "Device" {} 0)
        "dev" (31 * 86400000)).2 "dev" = none) :=
  ⟨((C5_persistence_roundtrip (fun _ => none) "dev" "Device" {} 0 3600000).1
      (by decide)).1,
   ((C5_persistence_roundtrip (fun _ => none) "dev" "Device" {} 0 (31 * 86400000)).2
      (by decide)).1,
   ((C5_persistence_roundtrip (fun _ => none) "dev" "Device" {} 0 (31 * 86400000)).2
      (by decide)).2.1⟩

/-! ## Automation presets (config/presets.ts)

Only the fields read by the modelled control flow appear; the timing
ranges (watch durations, scroll delays, rest ranges) only feed `wait`
calls and never influence any tracked state, so they are omitted. -/

structure InteractionPresets where
  likeChance : Rat
  commentChance : Rat
  followChance : Rat
  dailyLimit : Nat
deriving DecidableEq

structure CommentPresets where
  templates : List String
  useAI : Bool
  maxLength : Nat
deriving DecidableEq

structure ControlPresets where
  healthCheckInterval : Nat
  maxHealthFailures : Nat
  shadowBanInterval : Nat
  maxConsecutiveErrors : Nat
deriving DecidableEq

structure AutomationPresets where
  searchTopic : Option String := none
  interactions : InteractionPresets
  comments : CommentPresets
  control : ControlPresets
deriving DecidableEq

/-! ## WorkingStage (src/stages/working.ts)

The mutable instance fields of the `WorkingStage` class are collected in
`WorkingState`. Device commands and agent calls are resolved by oracle
values carried in per-video environments: the embedding is the source's
control flow with every external call's outcome supplied as data. -/

structure WorkingStats where
  videosWatched : Nat := 0
  likesGiven : Nat := 0
  commentsPosted : Nat := 0
  followsGiven : Nat := 0
  errors : Nat := 0
deriving DecidableEq

structure WorkingState where
  stats : WorkingStats := {}
  healthFailures : Nat := 0
  healthFailureExceeded : Bool := false
  needsTopicReSearch : Bool := false
deriving DecidableEq

/-- Outcome of the agent call inside `performHealthCheck`:
the structured result's `success` flag together with whether
`actionsPerformed` was nonempty, or the call throwing. -/
inductive HealthOutcome
  | ok (fixedSomething : Bool)
  | fail
  | threw
deriving DecidableEq

/-- Outcome of the two-phase AI comment pipeline inside `executeComment`:
either both agent calls returned (with the phase-2 screen flag and
generated text), or some call threw and the code falls back to the
template at the given random index. -/
inductive CommentPipelineOutcome
  | generated (screenLooksLikeNormalFeed : Bool) (commentText : String)
  | threw (templateIdx : Nat)
deriving DecidableEq

structure CommentEnv where
  pipeline : CommentPipelineOutcome := .threw 0
  templateIdx : Nat := 0
  deviceOk : Bool := true
  verifiedYes : Bool := true
  verifyHealth : HealthOutcome := .ok false
deriving DecidableEq

/-- The three `Math.random()` draws of `decideAction`. -/
structure ActionRolls where
  likeRoll : Rat
  commentRoll : Rat
  followRoll : Rat
deriving DecidableEq

inductive ActionKind
  | like
  | comment
  | follow
  | next_video
deriving DecidableEq

/-- Oracle for one `scrollToNextVideo` call: whether the device commands
throw, plus the screenshots the comparisons see. -/
structure ScrollEnv where
  deviceOk : Bool := true
  beforeScreenshot : List Nat := []
  afterScreenshot : Nat → List Nat := fun _ => []

/-- Environment for one `processVideo` cycle. The shadow-ban step
(working.ts lines 562-570) only inserts a recovery delay and never changes
tracked state, so it has no oracle here; the watch step (lines 538-543) is
likewise timing only. -/
structure VideoEnv where
  health : HealthOutcome := .ok false
  rolls : ActionRolls := ⟨1, 1, 1⟩
  likeTapOk : Bool := true
  comment : CommentEnv := {}
  followOk : Bool := true
  scroll : ScrollEnv := {}

namespace WorkingStage

/-- working.ts lines 621-698: the health-check agent call. On a
returned-but-unsuccessful result the method itself increments
`healthFailures` and sets `healthFailureExceeded` against the hard-coded
threshold `3` (lines 682-688) — independent of
`presets.control.maxHealthFailures`; on success it resets the counter to 0
and flags a topic re-search if fixes were applied; if the call throws the
catch returns `false` without touching the counter (lines 694-697). -/
def performHealthCheck (st : WorkingState) (h : HealthOutcome) : Bool × WorkingState :=
  match h with
  | .threw => (false, st)
  | .ok fixedSomething =>
    let st := if fixedSomething then { st with needsTopicReSearch := true } else st
    (true, { st with healthFailures := 0 })
  | .fail =>
    let st := { st with healthFailures := st.healthFailures + 1 }
    let st := if 3 ≤ st.healthFailures then { st with healthFailureExceeded := true } else st
    (false, st)

/-- working.ts lines 196-218: tap the learned like button; a missing
coordinate is a no-op failure, a throwing tap increments `errors`. -/
def executeLike (ui : LearnedUIElements) (st : WorkingState) (tapOk : Bool) :
    Bool × WorkingState :=
  if ui.likeButton.isSome then
    if tapOk then
      (true, { st with stats := { st.stats with likesGiven := st.stats.likesGiven + 1 } })
    else (false, { st with stats := { st.stats with errors := st.stats.errors + 1 } })
  else (false, st)

/-- working.ts lines 223-265: open the creator profile, tap the learned
follow button, navigate back; a missing coordinate is a no-op failure, a
throwing device call increments `errors`. -/
def executeFollow (ui : LearnedUIElements) (st : WorkingState) (deviceOk : Bool) :
    Bool × WorkingState :=
  if ui.followButton.isSome then
    if deviceOk then
      (true, { st with stats := { st.stats with followsGiven := st.stats.followsGiven + 1 } })
    else (false, { st with stats := { st.stats with errors := st.stats.errors + 1 } })
  else (false, st)

/-- The template pick `templates[Math.floor(Math.random() * length)]`,
with the random index supplied as an oracle value reduced modulo the
length. -/
def chosenTemplate (cfg : CommentPresets) (i : Nat) : String :=
  cfg.templates.getD (i % cfg.templates.length) ""

/-- working.ts lines 272-423: the comment action. Missing comment UI
coordinates are a no-op failure. With AI enabled, a completed pipeline
whose phase-2 result reports a non-feed screen abandons the comment
(navigate back, `false`, no error); a throwing pipeline falls back to a
sanitized template; with AI disabled the sanitized template is used
directly. A throwing device call is the catch path (`errors` + 1). After
typing and sending, a failed verification triggers a corrective
`performHealthCheck` (line 407) whose boolean result is discarded; then
`commentsPosted` is incremented. -/
def executeComment (p : AutomationPresets) (ui : LearnedUIElements) (st : WorkingState)
    (e : CommentEnv) : Bool × WorkingState :=
  if ui.commentButton.isSome ∧ ui.commentInputField.isSome ∧ ui.commentSendButton.isSome then
    if e.deviceOk then
      let chosenText : Option String :=
        if p.comments.useAI then
          match e.pipeline with
          | .generated screenNormal txt =>
            if screenNormal then some (aiCommentText p.comments.maxLength txt) else none
          | .threw i => some (templateCommentText (chosenTemplate p.comments i))
        else some (templateCommentText (chosenTemplate p.comments e.templateIdx))
      match chosenText with
      | none => (false, st)
      | some _ =>
        let st := if e.verifiedYes then st else (performHealthCheck st e.verifyHealth).2
        (true, { st with stats := { st.stats with commentsPosted := st.stats.commentsPosted + 1 } })
    else (false, { st with stats := { st.stats with errors := st.stats.errors + 1 } })
  else (false, st)

/-- working.ts lines 151-191: three independent Bernoulli draws, pushed in
the order like, comment, follow; if none fire, a single `next_video`
no-op. -/
def decideAction (p : AutomationPresets) (r : ActionRolls) : List ActionKind :=
  let decisions :=
    (if r.likeRoll < p.interactions.likeChance then [ActionKind.like] else []) ++
    (if r.commentRoll < p.interactions.commentChance then [ActionKind.comment] else []) ++
    (if r.followRoll < p.interactions.followChance then [ActionKind.follow] else [])
  if decisions = [] then [ActionKind.next_video] else decisions

/-- working.ts lines 429-447: screenshot similarity by byte sampling. If
the byte-length ratio is below 0.9 the screens are declared different with
that ratio; otherwise about 1000 evenly spaced bytes are sampled and the
matching fraction returned. An empty buffer makes the source compute NaN,
whose comparisons are all false, so the caller treats the pair as
unchanged; that case is modelled as similarity 1. -/
def compareScreenshots (a b : List Nat) : Rat :=
  if min a.length b.length = 0 then 1
  else
    let lengthRatio : Rat := mkRat (min a.length b.length) (max a.length b.length)
    if lengthRatio < mkRat 9 10 then lengthRatio
    else
      let minLen := min a.length b.length
      let step := max 1 (minLen / 1000)
      let total := (minLen + step - 1) / step
      let matchCount :=
        ((List.range total).filter (fun j => a.getD (j * step) 0 = b.getD (j * step) 0)).length
      mkRat matchCount total

/-- Swipe geometry per attempt (working.ts lines 464-466): the first
attempt swipes from 70% to 30% of the screen height over 300 ms, every
retry from 85% to 15% over 200 ms. -/
def swipeParams (attempt : Nat) : Rat × Rat × Nat :=
  if attempt = 0 then (mkRat 7 10, mkRat 3 10, 300) else (mkRat 17 20, mkRat 3 20, 200)

/-- The retry loop of `scrollToNextVideo` (working.ts lines 462-485),
over the remaining attempt numbers (`[0, 1, 2]` at entry, from
`maxRetries = 2`): returns the swipes performed and whether some attempt
saw similarity below 0.95 against the original before-screenshot. -/
def scrollLoop (before : List Nat) (after : Nat → List Nat) :
    List Nat → List (Rat × Rat × Nat) × Bool
  | [] => ([], false)
  | attempt :: restAttempts =>
    if compareScreenshots before (after attempt) < mkRat 95 100 then
      ([swipeParams attempt], true)
    else
      let rest := scrollLoop before after restAttempts
      (swipeParams attempt :: rest.1, rest.2)

/-- working.ts lines 452-503: swipe with verification and progressive
retry; when every attempt sees similarity at or above 0.95 the code
presses back, performs one final aggressive swipe, and still reports
success. Returns (result, state, (swipes performed, pressed back)). A
throwing device call is the catch path: `errors` + 1 and `false`. -/
def scrollToNextVideo (st : WorkingState) (e : ScrollEnv) :
    Bool × WorkingState × (List (Rat × Rat × Nat) × Bool) :=
  if e.deviceOk then
    let r := scrollLoop e.beforeScreenshot e.afterScreenshot [0, 1, 2]
    if r.2 then (true, st, (r.1, false))
    else (true, st, (r.1 ++ [(mkRat 17 20, mkRat 3 20, 200)], true))
  else (false, { st with stats := { st.stats with errors := st.stats.errors + 1 } }, ([], false))

/-- Steps 3-4 of `processVideo` (working.ts lines 572-597): execute every
decided action in order; each action only mutates its own counters, the
scroll result is ignored. -/
def runActions (p : AutomationPresets) (ui : LearnedUIElements) (st : WorkingState)
    (v : VideoEnv) : WorkingState :=
  (decideAction p v.rolls).foldl (fun st a =>
    match a with
    | ActionKind.like => (executeLike ui st v.likeTapOk).2
    | ActionKind.comment => (executeComment p ui st v.comment).2
    | ActionKind.follow => (executeFollow ui st v.followOk).2
    | ActionKind.next_video => st) st

/-- Steps 3-8 of `processVideo` (working.ts lines 572-609): actions,
scroll, increment the video counter, then check the daily action cap and
tell the session loop whether to continue. -/
def finishVideo (p : AutomationPresets) (ui : LearnedUIElements) (st : WorkingState)
    (v : VideoEnv) : WorkingState × Bool :=
  let st := runActions p ui st v
  let st := (scrollToNextVideo st v.scroll).2.1
  let st := { st with stats := { st.stats with videosWatched := st.stats.videosWatched + 1 } }
  let totalActions := st.stats.likesGiven + st.stats.commentsPosted + st.stats.followsGiven
  if p.interactions.dailyLimit ≤ totalActions then (st, false) else (st, true)

/-- working.ts lines 527-616: one video cycle. A health check runs every
`healthCheckInterval` videos, skipping video 0 (line 547); on a failed
check the caller increments the shared `healthFailures` counter a second
time (line 551, after the increment inside `performHealthCheck`) and
aborts the cycle once it reaches `maxHealthFailures`, setting
`healthFailureExceeded`; a successful check resets the counter. -/
def topicReSearch (p : AutomationPresets) (st : WorkingState) : WorkingState :=
  if st.needsTopicReSearch ∧ p.searchTopic.isSome then
    { st with needsTopicReSearch := false } else st

theorem topicReSearch_eq_self {p : AutomationPresets} {st : WorkingState}
    (h : st.needsTopicReSearch = false) : topicReSearch p st = st := by
  simp [topicReSearch, h]

def processVideo (p : AutomationPresets) (ui : LearnedUIElements) (st0 : WorkingState)
    (v : VideoEnv) : WorkingState × Bool :=
  let st := topicReSearch p st0
  if 0 < st.stats.videosWatched ∧ st.stats.videosWatched % p.control.healthCheckInterval = 0 then
    let hc := performHealthCheck st v.health
    if hc.1 then finishVideo p ui { hc.2 with healthFailures := 0 } v
    else
      let st := { hc.2 with healthFailures := hc.2.healthFailures + 1 }
      if p.control.maxHealthFailures ≤ st.healthFailures then
        ({ st with healthFailureExceeded := true }, false)
      else finishVideo p ui st v
  else finishVideo p ui st v

/-- Environment for one `execute` run: the `ensureTikTokReady` outcome,
the random session size, and the oracle stream of video environments. The
result is `none` when the loop would run past the supplied stream. -/
structure SessionEnv where
  tiktokReady : Bool := true
  sessionSize : Nat := 1000000
  videos : List VideoEnv := []

structure WorkingResult where
  success : Bool
  videosWatched : Nat
  likesGiven : Nat
  commentsPosted : Nat
  followsGiven : Nat
  shouldContinue : Bool
  message : String
deriving DecidableEq

/-- The `while (shouldContinue)` loop of `execute` (working.ts lines
899-935): run a cycle; stop with `shouldContinue = false` when the cycle
says stop; stop with `shouldContinue = true` at the session video target;
otherwise, whenever the cumulative error total is nonzero the
`consecutiveErrors` counter grows and stops the loop at
`maxConsecutiveErrors`, and it resets only while the total is still
zero. -/
def sessionLoop (p : AutomationPresets) (ui : LearnedUIElements) (sessionSize : Nat) :
    WorkingState → Nat → List VideoEnv → Option (WorkingState × Bool)
  | _, _, [] => none
  | st, consecutiveErrors, v :: rest =>
    let r := processVideo p ui st v
    if r.2 = false then some (r.1, false)
    else if sessionSize ≤ r.1.stats.videosWatched then some (r.1, true)
    else if 0 < r.1.stats.errors then
      if p.control.maxConsecutiveErrors ≤ consecutiveErrors + 1 then some (r.1, false)
      else sessionLoop p ui sessionSize r.1 (consecutiveErrors + 1) rest
    else sessionLoop p ui sessionSize r.1 0 rest

/-- The generic completion message built at working.ts line 971. -/
def sessionCompletedMessage (st : WorkingState) : String :=
  "Session completed. Videos: " ++ toString st.stats.videosWatched ++
    ", Likes: " ++ toString st.stats.likesGiven ++
    ", Comments: " ++ toString st.stats.commentsPosted ++
    ", Follows: " ++ toString st.stats.followsGiven

/-- The result construction after the loop (working.ts lines 937-972):
`healthFailureExceeded` takes precedence, then the daily limit, then the
generic completion result. -/
def finalizeResult (p : AutomationPresets) (st : WorkingState) (shouldContinue : Bool) :
    WorkingResult :=
  if st.healthFailureExceeded then
    ⟨false, st.stats.videosWatched, st.stats.likesGiven, st.stats.commentsPosted,
      st.stats.followsGiven, false, "healthFailureExceeded"⟩
  else
    let totalActions := st.stats.likesGiven + st.stats.commentsPosted + st.stats.followsGiven
    if shouldContinue = false ∧ p.interactions.dailyLimit ≤ totalActions then
      ⟨true, st.stats.videosWatched, st.stats.likesGiven, st.stats.commentsPosted,
        st.stats.followsGiven, false, "dailyLimitReached"⟩
    else
      ⟨true, st.stats.videosWatched, st.stats.likesGiven, st.stats.commentsPosted,
        st.stats.followsGiven, shouldContinue, sessionCompletedMessage st⟩

/-- working.ts lines 864-986: `execute`. A failed readiness check returns
immediately; the topic search (lines 882-887) only logs on failure and
changes no tracked state. -/
def execute (p : AutomationPresets) (ui : LearnedUIElements) (env : SessionEnv) :
    Option WorkingResult :=
  if env.tiktokReady then
    (sessionLoop p ui env.sessionSize {} 0 env.videos).map
      (fun r => finalizeResult p r.1 r.2)
  else
    some ⟨false, 0, 0, 0, 0, false, "Failed to ensure TikTok is ready for automation"⟩

end WorkingStage

/-! ## Claim C1: the health-failure invariant -/

/-- Concrete presets for the health-failure runs: `healthCheckInterval = 1`,
`maxHealthFailures = 2`, no interactions. -/
def healthPresets : AutomationPresets :=
  ⟨none, ⟨0, 0, 0, 100⟩, ⟨["nice"], false, 100⟩, ⟨1, 2, 5, 10⟩⟩

/-- A video cycle whose health-check agent call (if one is scheduled)
returns an unsuccessful result. -/
def failingHealthVideo : VideoEnv := { health := HealthOutcome.fail }

/-- C1 counterexample: with `maxHealthFailures = 2` the claim requires the
session to terminate after exactly 2 consecutive failed health checks. In
the code each failed check increments the shared counter twice (once
inside `performHealthCheck`, once at the `processVideo` call site), so the
run below terminates with `healthFailureExceeded` after a single failed
check: video 1 schedules no check at all (second conjunct: its cycle
leaves the counter at 0 and continues even though its oracle would fail a
check), and video 2 runs the one and only check of the run, after which
`execute` already reports `success = false, message =
"healthFailureExceeded"` (first conjunct). -/
theorem C1_counterexample :
    WorkingStage.execute healthPresets {} ⟨true, 10, [failingHealthVideo, failingHealthVideo]⟩
      = some ⟨false, 1, 0, 0, 0, false, "healthFailureExceeded"⟩ ∧
    (WorkingStage.processVideo healthPresets {} {} failingHealthVideo).1.healthFailures = 0 ∧
    (WorkingStage.processVideo healthPresets {} {} failingHealthVideo).2 = true ∧
    healthPresets.control.maxHealthFailures = 2 := by
  refine ⟨?_, ?_, ?_, rfl⟩ <;> decide

/-- C1 (amended): each scheduled health check that comes back unsuccessful
advances the shared `healthFailures` counter by 2 — once inside
`performHealthCheck` (against the hard-coded threshold 3) and once at the
`processVideo` call site (against `maxHealthFailures`) — so, starting from
a zero counter, the session aborts at the ⌈maxHealthFailures/2⌉-th
consecutive failed scheduled check (sixth conjunct: the counter after k
failed checks is 2k, and 2k reaches `maxHealthFailures = m` exactly when
k reaches (m+1)/2), not at the maxHealthFailures-th. A successful check
still resets the counter to zero (third conjunct). The abort immediately
stops the session loop (fourth conjunct) and `execute` then reports
`success = false` with message exactly `"healthFailureExceeded"` (fifth
conjunct). First conjunct: the aborting check; second conjunct: a failed
check below the threshold continues the cycle with the counter advanced by
2 and the exceeded flag additionally set by the inner hard-coded threshold
when the counter passes 3. -/
theorem C1_health_failure_amended :
    (∀ (p : AutomationPresets) (ui : LearnedUIElements) (st : WorkingState) (v : VideoEnv),
      v.health = HealthOutcome.fail →
      st.needsTopicReSearch = false →
      0 < st.stats.videosWatched →
      st.stats.videosWatched % p.control.healthCheckInterval = 0 →
      p.control.maxHealthFailures ≤ st.healthFailures + 2 →
      WorkingStage.processVideo p ui st v =
        ({ st with healthFailures := st.healthFailures + 2, healthFailureExceeded := true },
          false)) ∧
    (∀ (p : AutomationPresets) (ui : LearnedUIElements) (st : WorkingState) (v : VideoEnv),
      v.health = HealthOutcome.fail →
      st.needsTopicReSearch = false →
      0 < st.stats.videosWatched →
      st.stats.videosWatched % p.control.healthCheckInterval = 0 →
      st.healthFailures + 2 < p.control.maxHealthFailures →
      WorkingStage.processVideo p ui st v =
        WorkingStage.finishVideo p ui
          { st with
            healthFailures := st.healthFailures + 2
            healthFailureExceeded := if 3 ≤ st.healthFailures + 1 then true else st.healthFailureExceeded } v) ∧
    (∀ (p : AutomationPresets) (ui : LearnedUIElements) (st : WorkingState) (v : VideoEnv)
        (fixed : Bool),
      v.health = HealthOutcome.ok fixed →
      st.needsTopicReSearch = false →
      0 < st.stats.videosWatched →
      st.stats.videosWatched % p.control.healthCheckInterval = 0 →
      WorkingStage.processVideo p ui st v =
        WorkingStage.finishVideo p ui
          { st with healthFailures := 0, needsTopicReSearch := fixed } v) ∧
    (∀ (p : AutomationPresets) (ui : LearnedUIElements) (sessionSize : Nat)
        (st : WorkingState) (cons : Nat) (v : VideoEnv) (rest : List VideoEnv)
        (st' : WorkingState),
      WorkingStage.processVideo p ui st v = (st', false) →
      WorkingStage.sessionLoop p ui sessionSize st cons (v :: rest) = some (st', false)) ∧
    (∀ (p : AutomationPresets) (st : WorkingState) (shouldContinue : Bool),
      st.healthFailureExceeded = true →
      WorkingStage.finalizeResult p st shouldContinue =
        ⟨false, st.stats.videosWatched, st.stats.likesGiven, st.stats.commentsPosted,
          st.stats.followsGiven, false, "healthFailureExceeded"⟩) ∧
    (∀ m k : Nat, 1 ≤ m → (m ≤ 2 * k ↔ (m + 1) / 2 ≤ k)) := by
  refine ⟨?_, ?_, ?_, ?_, ?_, ?_⟩
  · intro p ui st v hh hnts hpos hmod hthr
    unfold WorkingStage.processVideo
    rw [WorkingStage.topicReSearch_eq_self hnts, if_pos ⟨hpos, hmod⟩, hh]
    simp only [WorkingStage.performHealthCheck, Bool.false_eq_true, if_false]
    by_cases h3 : 3 ≤ st.healthFailures + 1
    · rw [if_pos h3]
      simp only
      rw [if_pos (by simpa using hthr)]
    · rw [if_neg h3]
      simp only
      rw [if_pos (by simpa using hthr)]
  · intro p ui st v hh hnts hpos hmod hthr
    unfold WorkingStage.processVideo
    rw [WorkingStage.topicReSearch_eq_self hnts, if_pos ⟨hpos, hmod⟩, hh]
    simp only [WorkingStage.performHealthCheck, Bool.false_eq_true, if_false]
    by_cases h3 : 3 ≤ st.healthFailures + 1
    · rw [if_pos h3]
      simp only
      rw [if_neg (by simpa using Nat.not_le.mpr hthr), if_pos h3]
    · rw [if_neg h3]
      simp only
      rw [if_neg (by simpa using Nat.not_le.mpr hthr), if_neg h3]
  · intro p ui st v fixed hh hnts hpos hmod
    unfold WorkingStage.processVideo
    rw [WorkingStage.topicReSearch_eq_self hnts, if_pos ⟨hpos, hmod⟩, hh]
    simp only [WorkingStage.performHealthCheck, Bool.true_eq_false, if_true]
    cases fixed with
    | true =>
      rw [if_pos rfl]
    | false =>
      rw [if_neg (by simp)]
      rw [hnts]
  · intro p ui sessionSize st cons v rest st' h
    simp [WorkingStage.sessionLoop, h]
  · intro p st shouldContinue hflag
    simp [WorkingStage.finalizeResult, hflag]
  · intro m k hm
    omega

/-- Witness for `C1_health_failure_amended` at concrete inputs. -/
theorem C1_health_failure_amended_witness :
    (WorkingStage.processVideo healthPresets {} { stats := { videosWatched := 1 } }
        failingHealthVideo =
      ({ stats := { videosWatched := 1 }, healthFailures := 2,
          healthFailureExceeded := true }, false)) ∧
    (WorkingStage.finalizeResult healthPresets
        { stats := { videosWatched := 1 }, healthFailures := 2,
          healthFailureExceeded := true } false =
      ⟨false, 1, 0, 0, 0, false, "healthFailureExceeded"⟩) ∧
    (2 ≤ 2 * 1 ↔ (2 + 1) / 2 ≤ 1) :=
  ⟨C1_health_failure_amended.1 healthPresets {} { stats := { videosWatched := 1 } }
      failingHealthVideo rfl rfl (by decide) (by decide) (by decide),
   C1_health_failure_amended.2.2.2.2.1 healthPresets
      { stats := { videosWatched := 1 }, healthFailures := 2,
        healthFailureExceeded := true } false rfl,
   C1_health_failure_amended.2.2.2.2.2 2 1 (by decide)⟩

/-! ## Claim C2: the daily-limit invariant -/

/-- Presets for the daily-limit runs: `likeChance = 1`, `dailyLimit = 3`,
`healthCheckInterval = 1`, `maxHealthFailures = 10`. -/
def dailyPresets : AutomationPresets :=
  ⟨none, ⟨1, 0, 0, 3⟩, ⟨["nice"], false, 100⟩, ⟨1, 10, 5, 10⟩⟩

/-- Learned UI with only the like button present. -/
def likeOnlyUI : LearnedUIElements := { likeButton := some ⟨100, 200, mkRat 9 10, none⟩ }

/-- A cycle whose like roll fires and whose health check (if scheduled)
succeeds. -/
def likeVideo : VideoEnv := { rolls := ⟨mkRat 1 2, 1, 1⟩ }

/-- A cycle whose like roll fires and whose scheduled health check comes
back unsuccessful. -/
def likeVideoHealthFail : VideoEnv :=
  { rolls := ⟨mkRat 1 2, 1, 1⟩, health := HealthOutcome.fail }

/-- C2 counterexample: a run in which the cumulative
likes+comments+follows reaches `dailyLimit = 3`, the loop does stop, but
`execute` reports `success = false` with message `"healthFailureExceeded"`
instead of `success = true` with `"dailyLimitReached"`: the two failed
health checks on videos 2 and 3 each advance the shared counter twice, so
the hard-coded inner threshold 3 of `performHealthCheck` sets
`healthFailureExceeded` (while `maxHealthFailures = 10` is never reached
and no abort happens), and that flag takes precedence over the daily-limit
result in `execute`. -/
theorem C2_counterexample :
    WorkingStage.execute dailyPresets likeOnlyUI
        ⟨true, 10, [likeVideo, likeVideoHealthFail, likeVideoHealthFail]⟩
      = some ⟨false, 3, 3, 0, 0, false, "healthFailureExceeded"⟩ ∧
    dailyPresets.interactions.dailyLimit = 3 :=
  ⟨by decide, rfl⟩

/-- C2 (amended): once the cumulative likes+comments+follows reaches
`dailyLimit`, the session loop stops — no completed cycle ever signals
"continue" with the cap reached (first conjunct), and a cycle that signals
stop ends the loop immediately with no further cycle started (second
conjunct) — and, provided the health-failure-exceeded flag was not set
during the run, `execute` returns `success = true, shouldContinue = false`
with message exactly `"dailyLimitReached"` (third conjunct). When the flag
was set, the `healthFailureExceeded` result takes precedence (the
counterexample run). -/
theorem C2_daily_limit_amended :
    (∀ (p : AutomationPresets) (ui : LearnedUIElements) (st : WorkingState) (v : VideoEnv)
        (st' : WorkingState),
      WorkingStage.processVideo p ui st v = (st', true) →
      st'.stats.likesGiven + st'.stats.commentsPosted + st'.stats.followsGiven
        < p.interactions.dailyLimit) ∧
    (∀ (p : AutomationPresets) (ui : LearnedUIElements) (sessionSize : Nat)
        (st : WorkingState) (cons : Nat) (v : VideoEnv) (rest : List VideoEnv)
        (st' : WorkingState),
      WorkingStage.processVideo p ui st v = (st', false) →
      WorkingStage.sessionLoop p ui sessionSize st cons (v :: rest) = some (st', false)) ∧
    (∀ (p : AutomationPresets) (st : WorkingState),
      st.healthFailureExceeded = false →
      p.interactions.dailyLimit ≤
        st.stats.likesGiven + st.stats.commentsPosted + st.stats.followsGiven →
      WorkingStage.finalizeResult p st false =
        ⟨true, st.stats.videosWatched, st.stats.likesGiven, st.stats.commentsPosted,
          st.stats.followsGiven, false, "dailyLimitReached"⟩) := by
  have hfin : ∀ (p : AutomationPresets) (ui : LearnedUIElements) (st : WorkingState)
      (v : VideoEnv) (st' : WorkingState),
      WorkingStage.finishVideo p ui st v = (st', true) →
      st'.stats.likesGiven + st'.stats.commentsPosted + st'.stats.followsGiven
        < p.interactions.dailyLimit := by
    intro p ui st v st' h
    simp only [WorkingStage.finishVideo] at h
    split_ifs at h with hcap
    · exact absurd (congrArg Prod.snd h) (by simp)
    · have h1 := congrArg Prod.fst h
      simp only at h1
      subst h1
      exact Nat.lt_of_not_le hcap
  refine ⟨?_, ?_, ?_⟩
  · intro p ui st v st' h
    simp only [WorkingStage.processVideo] at h
    split_ifs at h with hsched hok hthr
    · exact hfin _ _ _ _ _ h
    · exact absurd (congrArg Prod.snd h) (by simp)
    · exact hfin _ _ _ _ _ h
    · exact hfin _ _ _ _ _ h
  · intro p ui sessionSize st cons v rest st' h
    simp [WorkingStage.sessionLoop, h]
  · intro p st hflag hcap
    unfold WorkingStage.finalizeResult
    rw [hflag]
    rw [if_neg (by simp)]
    rw [if_pos ⟨rfl, hcap⟩]

/-- Witness for `C2_daily_limit_amended` at concrete inputs. -/
theorem C2_daily_limit_amended_witness :
    (WorkingStage.sessionLoop dailyPresets likeOnlyUI 10
        { stats := { videosWatched := 2, likesGiven := 2 } } 0 [likeVideo] =
      some ({ stats := { videosWatched := 3, likesGiven := 3 } }, false)) ∧
    (WorkingStage.finalizeResult dailyPresets
        { stats := { videosWatched := 3, likesGiven := 3 } } false =
      ⟨true, 3, 3, 0, 0, false, "dailyLimitReached"⟩) :=
  ⟨C2_daily_limit_amended.2.1 dailyPresets likeOnlyUI 10
      { stats := { videosWatched := 2, likesGiven := 2 } } 0 likeVideo []
      { stats := { videosWatched := 3, likesGiven := 3 } } (by decide),
   C2_daily_limit_amended.2.2 dailyPresets
      { stats := { videosWatched := 3, likesGiven := 3 } } rfl (by decide)⟩

/-! ## Claim C4: consecutive processing errors -/

/-- Presets for the error runs: `likeChance = 1`,
`maxConsecutiveErrors = 2`, health checks effectively disabled
(`healthCheckInterval = 1000`). -/
def errorPresets : AutomationPresets :=
  ⟨none, ⟨1, 0, 0, 100⟩, ⟨["nice"], false, 100⟩, ⟨1000, 10, 5, 2⟩⟩

/-- A cycle whose like roll fires but whose like tap throws, producing one
processing error. -/
def likeTapFailVideo : VideoEnv :=
  { rolls := ⟨mkRat 1 2, 1, 1⟩, likeTapOk := false }

/-- C4 counterexample: with `maxConsecutiveErrors = 2` and an action
failure on every video, the loop does stop after 2 videos (well short of
the session target 10), but `execute` falls through to the generic
completion result and reports `success = true` — not `success = false` as
the claim requires. -/
theorem C4_counterexample :
    WorkingStage.execute errorPresets likeOnlyUI ⟨true, 10, [likeTapFailVideo, likeTapFailVideo]⟩
      = some ⟨true, 2, 0, 0, 0, false,
          "Session completed. Videos: 2, Likes: 0, Comments: 0, Follows: 0"⟩ ∧
    errorPresets.control.maxConsecutiveErrors = 2 :=
  ⟨by decide, rfl⟩

/-- C4 (amended): when the consecutive-error counter reaches
`maxConsecutiveErrors`, the session loop stops at once (first conjunct),
and — the health flag being unset and the daily cap not reached —
`execute` returns the *generic completion* result with `success = true`
and `shouldContinue = false` (second conjunct), not `success = false` as
the claim states. Below the threshold, a completed cycle with a nonzero
error total merely advances the counter and the loop continues into the
next cycle (third conjunct); an individual action failure itself only
increments the error counter of the stage (fourth conjunct, shown for the
like action). -/
theorem C4_consecutive_errors_amended :
    (∀ (p : AutomationPresets) (ui : LearnedUIElements) (sessionSize : Nat)
        (st : WorkingState) (cons : Nat) (v : VideoEnv) (rest : List VideoEnv),
      (WorkingStage.processVideo p ui st v).2 = true →
      (WorkingStage.processVideo p ui st v).1.stats.videosWatched < sessionSize →
      0 < (WorkingStage.processVideo p ui st v).1.stats.errors →
      p.control.maxConsecutiveErrors ≤ cons + 1 →
      WorkingStage.sessionLoop p ui sessionSize st cons (v :: rest) =
        some ((WorkingStage.processVideo p ui st v).1, false)) ∧
    (∀ (p : AutomationPresets) (st : WorkingState),
      st.healthFailureExceeded = false →
      st.stats.likesGiven + st.stats.commentsPosted + st.stats.followsGiven
        < p.interactions.dailyLimit →
      WorkingStage.finalizeResult p st false =
        ⟨true, st.stats.videosWatched, st.stats.likesGiven, st.stats.commentsPosted,
          st.stats.followsGiven, false, WorkingStage.sessionCompletedMessage st⟩) ∧
    (∀ (p : AutomationPresets) (ui : LearnedUIElements) (sessionSize : Nat)
        (st : WorkingState) (cons : Nat) (v : VideoEnv) (rest : List VideoEnv),
      (WorkingStage.processVideo p ui st v).2 = true →
      (WorkingStage.processVideo p ui st v).1.stats.videosWatched < sessionSize →
      0 < (WorkingStage.processVideo p ui st v).1.stats.errors →
      cons + 1 < p.control.maxConsecutiveErrors →
      WorkingStage.sessionLoop p ui sessionSize st cons (v :: rest) =
        WorkingStage.sessionLoop p ui sessionSize
          (WorkingStage.processVideo p ui st v).1 (cons + 1) rest) ∧
    (∀ (ui : LearnedUIElements) (st : WorkingState),
      ui.likeButton.isSome = true →
      WorkingStage.executeLike ui st false =
        (false, { st with stats := { st.stats with errors := st.stats.errors + 1 } })) := by
  refine ⟨?_, ?_, ?_, ?_⟩
  · intro p ui sessionSize st cons v rest h1 h2 h3 h4
    simp only [WorkingStage.sessionLoop]
    rw [if_neg (by simp [h1]), if_neg (Nat.not_le.mpr h2), if_pos h3, if_pos h4]
  · intro p st hflag hcap
    unfold WorkingStage.finalizeResult
    rw [hflag]
    rw [if_neg (by simp)]
    rw [if_neg (by intro hcon; exact absurd hcon.2 (Nat.not_le.mpr hcap))]
  · intro p ui sessionSize st cons v rest h1 h2 h3 h4
    simp only [WorkingStage.sessionLoop]
    rw [if_neg (by simp [h1]), if_neg (Nat.not_le.mpr h2), if_pos h3,
      if_neg (Nat.not_le.mpr h4)]
  · intro ui st hui
    unfold WorkingStage.executeLike
    rw [if_pos hui, if_neg (by simp)]

/-- Witness for `C4_consecutive_errors_amended` at concrete inputs. -/
theorem C4_consecutive_errors_amended_witness :
    (WorkingStage.sessionLoop errorPresets likeOnlyUI 10
        { stats := { videosWatched := 1, errors := 1 } } 1 [likeTapFailVideo] =
      some ({ stats := { videosWatched := 2, errors := 2 } }, false)) ∧
    (WorkingStage.executeLike likeOnlyUI {} false =
      (false, { stats := { errors := 1 } })) :=
  ⟨by
    have h := C4_consecutive_errors_amended.1 errorPresets likeOnlyUI 10
      { stats := { videosWatched := 1, errors := 1 } } 1 likeTapFailVideo []
      (by decide) (by decide) (by decide) (by decide)
    rw [h]
    decide,
   C4_consecutive_errors_amended.2.2.2 likeOnlyUI {} (by decide)⟩

/-! ## Claim C7: scroll with verification and progressive retry -/

/-- C7: `scrollToNextVideo` (absent a throwing device call) always reports
success and never changes the stage state (first conjunct). It makes up to
3 swipe attempts, returning success as soon as the before/after similarity
drops below 0.95 — after 1, 2 or 3 swipes respectively (conjuncts 2-4) —
while similarity at or above 0.95 counts as "no visible change" and
triggers the next attempt. Once all 3 attempts are exhausted it presses
back, performs one more aggressive swipe, and still reports success
(conjunct 5). The swipe geometry escalates after the first attempt: 70%→30%
of the screen height over 300 ms first, then 85%→15% over 200 ms for every
later attempt and for the final fallback swipe (conjunct 6). -/
theorem C7_scrollToNextVideo_retries :
    (∀ (st : WorkingState) (e : ScrollEnv), e.deviceOk = true →
      (WorkingStage.scrollToNextVideo st e).1 = true ∧
      (WorkingStage.scrollToNextVideo st e).2.1 = st) ∧
    (∀ (st : WorkingState) (e : ScrollEnv), e.deviceOk = true →
      WorkingStage.compareScreenshots e.beforeScreenshot (e.afterScreenshot 0) < mkRat 95 100 →
      WorkingStage.scrollToNextVideo st e =
        (true, st, ([WorkingStage.swipeParams 0], false))) ∧
    (∀ (st : WorkingState) (e : ScrollEnv), e.deviceOk = true →
      ¬ WorkingStage.compareScreenshots e.beforeScreenshot (e.afterScreenshot 0) < mkRat 95 100 →
      WorkingStage.compareScreenshots e.beforeScreenshot (e.afterScreenshot 1) < mkRat 95 100 →
      WorkingStage.scrollToNextVideo st e =
        (true, st, ([WorkingStage.swipeParams 0, WorkingStage.swipeParams 1], false))) ∧
    (∀ (st : WorkingState) (e : ScrollEnv), e.deviceOk = true →
      ¬ WorkingStage.compareScreenshots e.beforeScreenshot (e.afterScreenshot 0) < mkRat 95 100 →
      ¬ WorkingStage.compareScreenshots e.beforeScreenshot (e.afterScreenshot 1) < mkRat 95 100 →
      WorkingStage.compareScreenshots e.beforeScreenshot (e.afterScreenshot 2) < mkRat 95 100 →
      WorkingStage.scrollToNextVideo st e =
        (true, st,
          ([WorkingStage.swipeParams 0, WorkingStage.swipeParams 1,
            WorkingStage.swipeParams 2], false))) ∧
    (∀ (st : WorkingState) (e : ScrollEnv), e.deviceOk = true →
      (∀ j, j ≤ 2 →
        ¬ WorkingStage.compareScreenshots e.beforeScreenshot (e.afterScreenshot j)
            < mkRat 95 100) →
      WorkingStage.scrollToNextVideo st e =
        (true, st,
          ([WorkingStage.swipeParams 0, WorkingStage.swipeParams 1, WorkingStage.swipeParams 2,
            (mkRat 17 20, mkRat 3 20, 200)], true))) ∧
    (WorkingStage.swipeParams 0 = (mkRat 7 10, mkRat 3 10, 300) ∧
      ∀ a : Nat, a ≠ 0 → WorkingStage.swipeParams a = (mkRat 17 20, mkRat 3 20, 200)) := by
  refine ⟨?_, ?_, ?_, ?_, ?_, rfl, ?_⟩
  · intro st e hdev
    constructor <;>
      · simp only [WorkingStage.scrollToNextVideo]
        rw [if_pos hdev]
        split <;> rfl
  · intro st e hdev h0
    simp only [WorkingStage.scrollToNextVideo, WorkingStage.scrollLoop]
    rw [if_pos hdev, if_pos h0]
    rfl
  · intro st e hdev h0 h1
    simp only [WorkingStage.scrollToNextVideo, WorkingStage.scrollLoop]
    rw [if_pos hdev, if_neg h0, if_pos h1]
    rfl
  · intro st e hdev h0 h1 h2
    simp only [WorkingStage.scrollToNextVideo, WorkingStage.scrollLoop]
    rw [if_pos hdev, if_neg h0, if_neg h1, if_pos h2]
    rfl
  · intro st e hdev hall
    simp only [WorkingStage.scrollToNextVideo, WorkingStage.scrollLoop]
    rw [if_pos hdev, if_neg (hall 0 (by omega)), if_neg (hall 1 (by omega)),
      if_neg (hall 2 (by omega))]
    rfl
  · intro a ha
    simp [WorkingStage.swipeParams, ha]

/-- Witness for `C7_scrollToNextVideo_retries` at concrete inputs: a
one-byte screenshot pair that differs succeeds on the first attempt; empty
screenshots (similarity 1) exhaust all attempts and take the
back-plus-final-swipe path, still reporting success. -/
theorem C7_scrollToNextVideo_retries_witness :
    (WorkingStage.scrollToNextVideo {}
        { deviceOk := true, beforeScreenshot := [0], afterScreenshot := fun _ => [1] } =
      (true, {}, ([WorkingStage.swipeParams 0], false))) ∧
    (WorkingStage.scrollToNextVideo {}
        { deviceOk := true, beforeScreenshot := [], afterScreenshot := fun _ => [] } =
      (true, {},
        ([WorkingStage.swipeParams 0, WorkingStage.swipeParams 1, WorkingStage.swipeParams 2,
          (mkRat 17 20, mkRat 3 20, 200)], true))) :=
  ⟨C7_scrollToNextVideo_retries.2.1 {}
      { deviceOk := true, beforeScreenshot := [0], afterScreenshot := fun _ => [1] }
      rfl (by decide),
   C7_scrollToNextVideo_retries.2.2.2.2.1 {}
      { deviceOk := true, beforeScreenshot := [], afterScreenshot := fun _ => [] }
      rfl (fun j hj => by interval_cases j <;> decide)⟩

/-! ## Worker session loop (Worker.ts, `startAutomation`, lines 682-744)

The loop is modelled with an explicit oracle per iteration (the working
session's result and the outcomes of the stage calls that iteration may
make). Statistics folding (`runWorkingSession`, lines 590-594) only
accumulates counters and does not influence control flow, so it is not
tracked. Events record which externally visible steps each iteration
performed, in order. -/

namespace Worker

inductive WorkerEvent
  | ranSession
  | clearedLearnedUI
  | deletedPersistedUI
  | relaunchedApp
  | reranLearning
  | restedAndRelaunched
deriving DecidableEq

/-- How the loop ends: the normal daily-limit and max-sessions stops, the
`error` stage, an exception thrown out of the loop (caught by
`startAutomation`, which sets the stage to `error` and rethrows), or the
oracle trace running out while the loop would continue. -/
inductive LoopExit
  | dailyLimit
  | maxSessions
  | errorStage
  | thrown (message : String)
  | outOfTrace
deriving DecidableEq

/-- Oracle for one loop iteration. -/
structure SessionOutcome where
  result : WorkingStage.WorkingResult
  relaunchOk : Bool := true
  relearnOk : Bool := true
  relearnedUI : LearnedUIElements := {}
  relearnSaveTime : Int := 0

/-- Worker.ts lines 686-744, one iteration per list element: after each
session, a `"healthFailureExceeded"` result wipes the in-memory learned
UI, deletes the persisted entry, relaunches the app and reruns learning
(throwing if either fails), then continues the loop; `"dailyLimitReached"`
stops normally; an unsuccessful result enters the `error` stage; then the
max-sessions cap is checked, and otherwise the worker rests and relaunches
for the next session (entering `error` if the relaunch fails). Returns the
exit, the event trace, and the final in-memory learned UI and persisted
store. -/
def sessionLoop (maxSessionsPerDay : Nat) (deviceId deviceName : String) :
    Nat → LearnedUIElements → UIDataStorage → List SessionOutcome →
      LoopExit × List WorkerEvent × LearnedUIElements × UIDataStorage
  | _, ui, store, [] => (LoopExit.outOfTrace, [], ui, store)
  | sessionCount, ui, store, e :: rest =>
    let count := sessionCount + 1
    if e.result.message = "healthFailureExceeded" then
      let uiCleared : LearnedUIElements := {}
      let storeDeleted := UIDataPersistence.deleteDeviceUIData store deviceId
      if e.relaunchOk = false then
        (LoopExit.thrown "Failed to re-launch TikTok after health failure",
          [WorkerEvent.ranSession, WorkerEvent.clearedLearnedUI,
            WorkerEvent.deletedPersistedUI], uiCleared, storeDeleted)
      else if e.relearnOk = false then
        (LoopExit.thrown "Re-learning stage failed after health failure",
          [WorkerEvent.ranSession, WorkerEvent.clearedLearnedUI,
            WorkerEvent.deletedPersistedUI, WorkerEvent.relaunchedApp], uiCleared, storeDeleted)
      else
        let uiNew := e.relearnedUI
        let storeNew := UIDataPersistence.saveDeviceUIData storeDeleted deviceId deviceName
          uiNew e.relearnSaveTime
        let cont := sessionLoop maxSessionsPerDay deviceId deviceName count uiNew storeNew rest
        (cont.1,
          [WorkerEvent.ranSession, WorkerEvent.clearedLearnedUI, WorkerEvent.deletedPersistedUI,
            WorkerEvent.relaunchedApp, WorkerEvent.reranLearning] ++ cont.2.1,
          cont.2.2)
    else if e.result.message = "dailyLimitReached" then
      (LoopExit.dailyLimit, [WorkerEvent.ranSession], ui, store)
    else if e.result.success = false then
      (LoopExit.errorStage, [WorkerEvent.ranSession], ui, store)
    else if maxSessionsPerDay ≤ count then
      (LoopExit.maxSessions, [WorkerEvent.ranSession], ui, store)
    else if e.relaunchOk = false then
      (LoopExit.errorStage, [WorkerEvent.ranSession, WorkerEvent.restedAndRelaunched], ui, store)
    else
      let cont := sessionLoop maxSessionsPerDay deviceId deviceName count ui store rest
      (cont.1, [WorkerEvent.ranSession, WorkerEvent.restedAndRelaunched] ++ cont.2.1, cont.2.2)

end Worker

/-- C3: a `"healthFailureExceeded"` session result is recoverable. When the
relaunch and relearning succeed, the handling iteration (first conjunct)
clears the in-memory learned UI and deletes the persisted entry, relaunches
the app, reruns the learning stage (persisting the newly learned UI), and
continues the session loop on the remaining trace — its exit is exactly the
remaining loop's exit, so this iteration by itself never produces the
`error` stage or a thrown error, even though the session result has
`success = false` (the `¬ result.success → error` branch is unreachable
here because the message test comes first). The second conjunct records
the side effect: the persisted entry for the device is removed by the
delete before relearning saves the fresh one. -/
theorem C3_health_failure_recovery
    (maxSessionsPerDay : Nat) (deviceId deviceName : String) (sessionCount : Nat)
    (ui : LearnedUIElements) (store : UIDataStorage)
    (e : Worker.SessionOutcome) (rest : List Worker.SessionOutcome)
    (hmsg : e.result.message = "healthFailureExceeded")
    (hrelaunch : e.relaunchOk = true) (hrelearn : e.relearnOk = true) :
    (Worker.sessionLoop maxSessionsPerDay deviceId deviceName sessionCount ui store (e :: rest) =
      (let cont := Worker.sessionLoop maxSessionsPerDay deviceId deviceName (sessionCount + 1)
          e.relearnedUI
          (UIDataPersistence.saveDeviceUIData
            (UIDataPersistence.deleteDeviceUIData store deviceId) deviceId deviceName
            e.relearnedUI e.relearnSaveTime) rest;
        (cont.1,
          [Worker.WorkerEvent.ranSession, Worker.WorkerEvent.clearedLearnedUI,
            Worker.WorkerEvent.deletedPersistedUI, Worker.WorkerEvent.relaunchedApp,
            Worker.WorkerEvent.reranLearning] ++ cont.2.1,
          cont.2.2))) ∧
    UIDataPersistence.deleteDeviceUIData store deviceId deviceId = none := by
  constructor
  · simp [Worker.sessionLoop, hmsg, hrelaunch, hrelearn]
  · simp [UIDataPersistence.deleteDeviceUIData]

/-- Witness for `C3_health_failure_recovery` at concrete inputs: the
recovery iteration on a one-element trace continues into (and here
exhausts) the remaining trace without entering the error stage. -/
theorem C3_health_failure_recovery_witness :
    (Worker.sessionLoop 5 "dev" "Device" 0 {} (fun _ => none)
        [⟨⟨false, 4, 1, 0, 0, false, "healthFailureExceeded"⟩, true, true, {}, 0⟩] =
      (Worker.LoopExit.outOfTrace,
        [Worker.WorkerEvent.ranSession, Worker.WorkerEvent.clearedLearnedUI,
          Worker.WorkerEvent.deletedPersistedUI, Worker.WorkerEvent.relaunchedApp,
          Worker.WorkerEvent.reranLearning], {},
        UIDataPersistence.saveDeviceUIData
          (UIDataPersistence.deleteDeviceUIData (fun _ => none) "dev") "dev" "Device" {} 0)) ∧
    UIDataPersistence.deleteDeviceUIData (fun _ => none) "dev" "dev" = none := by
  have h := C3_health_failure_recovery 5 "dev" "Device" 0 {} (fun _ => none)
    ⟨⟨false, 4, 1, 0, 0, false, "healthFailureExceeded"⟩, true, true, {}, 0⟩ [] rfl rfl rfl
  refine ⟨?_, h.2⟩
  rw [h.1]
  rfl

end TikTokWarmup
